import Mathlib

/-!
Shallow embedding of `packages/@jsii/python-runtime/src/jsii/python.py`:
the `_ClassProperty` descriptor, the `class_property` / `classproperty`
entry points and the `_ClassPropertyMeta` metaclass, together with the
fragment of the host (Python) attribute protocol that their lines invoke
(`__get__` binding of plain functions, classmethods and staticmethods,
class and instance attribute lookup, `type.__setattr__`, `type(x)`).

Raw callables are modelled by symbols of an arbitrary type `F`; an
interpretation `interp : F → List (PyVal F) → PyVal F` supplies their
behaviour (callables are total on argument lists: the source performs no
arity validation).  Each semantic function additionally returns the list
of raw invocations it performs (symbol and argument list, in order), so
that "the setter is invoked exactly once with these arguments" is a
statement about that trace.
-/

namespace PyShim

/-- Kind of a callable object: plain function, `classmethod` object, or
`staticmethod` object — the three cases distinguished by the source's
`isinstance(func, (classmethod, staticmethod))` test. -/
inductive CKind where
  | plain
  | classmethod
  | staticmethod
deriving DecidableEq

/-- State of a `_ClassProperty` as set up by `__init__(self, fget, fset=None)`:
`self.fget` is a callable object (kind and raw symbol), `self.fset` is `None`
or a callable object.  `oid` models Python object identity (`id(self)`). -/
structure CProp (F : Type) where
  oid : Nat
  fgetK : CKind
  fgetF : F
  fset : Option (CKind × F)
deriving DecidableEq

/-- The Python values the shim manipulates: `None`, integers (standing for
arbitrary plain data), class objects (name and metaclass name), instances
(their class's name and metaclass name), callable objects, bound methods,
and `_ClassProperty` descriptors. -/
inductive PyVal (F : Type) where
  | none
  | int (n : Int)
  | cls (name mcls : String)
  | inst (clsname mcls : String)
  | fn (k : CKind) (f : F)
  | bound (f : F) (recv : PyVal F)
  | cprop (p : CProp F)
deriving DecidableEq

/-- Trace of raw-callable invocations: symbol and full argument list, in order. -/
abbrev Trace (F : Type) := List (F × List (PyVal F))

/-- Interpretation of the raw callable symbols. -/
abbrev Interp (F : Type) := F → List (PyVal F) → PyVal F

/-- Name of the interceptor metaclass, `_ClassPropertyMeta`. -/
def metaName : String := "_ClassPropertyMeta"

/-- A user class whose metaclass is `_ClassPropertyMeta`: its name and its
class dictionary (`cls.__dict__`). -/
structure PyClass (F : Type) where
  name : String
  dict : List (String × PyVal F)
deriving DecidableEq

/-- The class object of `c` as a value. -/
def classValue {F : Type} (c : PyClass F) : PyVal F := PyVal.cls c.name metaName

/-- An instance of `c` as a value. -/
def instValue {F : Type} (c : PyClass F) : PyVal F := PyVal.inst c.name metaName

/-- The `_ClassPropertyMeta` metaclass itself as a value. -/
def metaValue {F : Type} : PyVal F := PyVal.cls metaName "type"

/-- Python `type(x)` restricted to the shapes that occur in the shim. -/
def typeOf {F : Type} : PyVal F → PyVal F
  | PyVal.cls _ m => PyVal.cls m "type"
  | PyVal.inst c m => PyVal.cls c m
  | PyVal.none => PyVal.cls "NoneType" "type"
  | PyVal.int _ => PyVal.cls "int" "type"
  | PyVal.fn _ _ => PyVal.cls "function" "type"
  | PyVal.bound _ _ => PyVal.cls "method" "type"
  | PyVal.cprop _ => PyVal.cls "_ClassProperty" "type"

/-- Host semantics of `callable.__get__(obj, klass)(args...)`: descriptor
binding of the three callable kinds followed by the call.  A plain function
binds to `obj` when one is present and stays unbound otherwise; a
`classmethod` binds to `klass`; a `staticmethod` never binds.  Returns the
result together with the single raw invocation performed. -/
def bindCall {F : Type} (interp : Interp F) (k : CKind) (f : F)
    (obj klass : PyVal F) (args : List (PyVal F)) : PyVal F × Trace F :=
  match k with
  | CKind.plain =>
    match obj with
    | PyVal.none => (interp f args, [(f, args)])
    | o => (interp f (o :: args), [(f, o :: args)])
  | CKind.classmethod => (interp f (klass :: args), [(f, klass :: args)])
  | CKind.staticmethod => (interp f args, [(f, args)])

/-- Source `_ClassProperty.__get__(self, obj, klass=None)`:
`if klass is None: klass = type(obj)` and then
`return self.fget.__get__(obj, klass)(klass)`. -/
def cpGet {F : Type} (interp : Interp F) (p : CProp F) (obj : PyVal F)
    (klass : Option (PyVal F)) : PyVal F × Trace F :=
  let k := match klass with
    | Option.none => typeOf obj
    | Option.some c => c
  bindCall interp p.fgetK p.fgetF obj k [k]

/-- Source `_ClassProperty.__set__(self, obj, value)`: raises
`AttributeError("Can't set attribute.")` when `self.fset` is `None`;
otherwise `klass = type(obj)` and
`return self.fset.__get__(obj, klass)(value)`. -/
def cpSet {F : Type} (interp : Interp F) (p : CProp F) (obj v : PyVal F) :
    Except String (PyVal F) × Trace F :=
  match p.fset with
  | Option.none => (Except.error "Can't set attribute.", [])
  | Option.some (k, f) =>
    let r := bindCall interp k f obj (typeOf obj) [v]
    (Except.ok r.1, r.2)

/-- The normalisation performed inside `_ClassProperty.setter`:
`if not isinstance(func, (classmethod, staticmethod)): func = classmethod(func)`. -/
def normalizeSetter {F : Type} (k : CKind) (f : F) : CKind × F :=
  match k with
  | CKind.plain => (CKind.classmethod, f)
  | k => (k, f)

/-- Source `_ClassProperty.setter(self, func)`: stores the normalised
callable in `self.fset` and returns `self` (same object, hence same `oid`). -/
def cpSetter {F : Type} (p : CProp F) (k : CKind) (f : F) : CProp F :=
  { p with fset := Option.some (normalizeSetter k f) }

/-- Source `class_property(func)`: wraps a getter into a `_ClassProperty`
with no setter. -/
def class_property {F : Type} (oid : Nat) (k : CKind) (f : F) : CProp F :=
  { oid := oid, fgetK := k, fgetF := f, fset := Option.none }

/-- Source alias `classproperty = class_property` (backwards compatibility). -/
def classproperty {F : Type} (oid : Nat) (k : CKind) (f : F) : CProp F :=
  class_property oid k f

/-- Lookup in a class dictionary. -/
def lookupDict {F : Type} : List (String × PyVal F) → String → Option (PyVal F)
  | [], _ => Option.none
  | (k, v) :: rest, key => if k = key then Option.some v else lookupDict rest key

/-- Plain overwrite of a class-dictionary entry, as performed by
`type.__setattr__` when no meta-level data descriptor exists for the name
(`_ClassPropertyMeta` defines none for user attributes). -/
def updateDict {F : Type} : List (String × PyVal F) → String → PyVal F →
    List (String × PyVal F)
  | [], key, v => [(key, v)]
  | (k, w) :: rest, key, v =>
    if k = key then (k, v) :: rest else (k, w) :: updateDict rest key v

/-- Host semantics of `getattr(cls, key, None)` for a class whose metaclass
is `_ClassPropertyMeta` (whose own dict holds no user attributes): the name
is looked up in the class dict and the found object's `__get__` is applied
with `(None, cls)` — in particular a stored `_ClassProperty` runs its getter
and the looked-up "current value" is the getter's result. -/
def classGetattr {F : Type} (interp : Interp F) (c : PyClass F) (key : String) :
    Option (PyVal F) × Trace F :=
  match lookupDict c.dict key with
  | Option.none => (Option.none, [])
  | Option.some (PyVal.cprop p) =>
    let r := cpGet interp p PyVal.none (Option.some (classValue c))
    (Option.some r.1, r.2)
  | Option.some (PyVal.fn CKind.plain f) => (Option.some (PyVal.fn CKind.plain f), [])
  | Option.some (PyVal.fn CKind.classmethod f) =>
    (Option.some (PyVal.bound f (classValue c)), [])
  | Option.some (PyVal.fn CKind.staticmethod f) =>
    (Option.some (PyVal.fn CKind.plain f), [])
  | Option.some w => (Option.some w, [])

/-- Outcome of an attribute assignment: whether `AttributeError` was raised,
the class dictionary afterwards, and the trace of raw invocations. -/
structure SetOutcome (F : Type) where
  raised : Bool
  dict : List (String × PyVal F)
  trace : Trace F
deriving DecidableEq

/-- Whether an `Except` result is the error case. -/
def isErr {α β : Type} : Except α β → Bool
  | Except.error _ => true
  | Except.ok _ => false

/-- Whether a value is a `_ClassProperty` instance
(`isinstance(obj, _ClassProperty)`). -/
def isCProp {F : Type} : PyVal F → Bool
  | PyVal.cprop _ => true
  | _ => false

/-- Source `_ClassPropertyMeta.__setattr__(self, key, value)`:
`obj = getattr(self, key, None)`; if `isinstance(obj, _ClassProperty)` then
`return obj.__set__(self, value)`, otherwise `super().__setattr__(key, value)`
(a plain class-dict update here, the metaclass holding no data descriptors
for user attribute names). -/
def metaSetattr {F : Type} (interp : Interp F) (c : PyClass F) (key : String)
    (v : PyVal F) : SetOutcome F :=
  let looked := classGetattr interp c key
  match looked.1.getD PyVal.none with
  | PyVal.cprop p =>
    match cpSet interp p (classValue c) v with
    | (Except.error _, t2) => ⟨true, c.dict, looked.2 ++ t2⟩
    | (Except.ok _, t2) => ⟨false, c.dict, looked.2 ++ t2⟩
  | _ => ⟨false, updateDict c.dict key v, looked.2⟩

/-- Host semantics of `instance.key = v` for an instance of `c`: the
protocol finds a data descriptor for `key` on the class (`_ClassProperty`
defines `__set__`) and calls its `__set__(instance, v)`; with no such
descriptor the assignment lands in the instance dict without error.
Returns whether `AttributeError` was raised, and the trace. -/
def instanceSetattr {F : Type} (interp : Interp F) (c : PyClass F) (key : String)
    (v : PyVal F) : Bool × Trace F :=
  match lookupDict c.dict key with
  | Option.some (PyVal.cprop p) =>
    match cpSet interp p (instValue c) v with
    | (Except.error _, t) => (true, t)
    | (Except.ok _, t) => (false, t)
  | _ => (false, [])

/-- Host semantics of `instance.key` for an instance of `c` (no per-instance
dict entries modelled): a `_ClassProperty` found on the class is read through
`__get__(instance, type(instance))`. -/
def instanceGetattr {F : Type} (interp : Interp F) (c : PyClass F) (key : String) :
    Option (PyVal F) × Trace F :=
  match lookupDict c.dict key with
  | Option.some (PyVal.cprop p) =>
    let r := cpGet interp p (instValue c) (Option.some (classValue c))
    (Option.some r.1, r.2)
  | Option.some (PyVal.fn CKind.plain f) =>
    (Option.some (PyVal.bound f (instValue c)), [])
  | Option.some (PyVal.fn CKind.classmethod f) =>
    (Option.some (PyVal.bound f (classValue c)), [])
  | Option.some (PyVal.fn CKind.staticmethod f) =>
    (Option.some (PyVal.fn CKind.plain f), [])
  | Option.some w => (Option.some w, [])
  | Option.none => (Option.none, [])

/-- Modelled from the spec wording of the read path (§4.1 and claim C5): the
effective class is the accessing object's class whenever an object was
supplied and the given class only otherwise; the getter is bound to that
effective class and invoked with it as sole argument. -/
def specRead {F : Type} (interp : Interp F) (p : CProp F) (obj klass : PyVal F) :
    PyVal F :=
  let eff := match obj with
    | PyVal.none => klass
    | o => typeOf o
  (bindCall interp p.fgetK p.fgetF PyVal.none eff [eff]).1

/-- Concrete interpretation reporting the number of arguments received. -/
def interpLen : Interp Nat := fun _ args => PyVal.int (Int.ofNat args.length)

/-- Concrete interpretation: symbol 0 computes 42, every other symbol 99. -/
def interpConst : Interp Nat := fun f _ =>
  if f = 0 then PyVal.int 42 else PyVal.int 99

/-- Concrete interpretation: symbol 2 computes 5, every other symbol `None`. -/
def interpC4 : Interp Nat := fun f _ =>
  if f = 2 then PyVal.int 5 else PyVal.none

/-- Helper: unfolding of `cpSet` when a setter is present. -/
theorem cpSet_some_eq {F : Type} (interp : Interp F) (oid : Nat) (kg : CKind)
    (g : F) (k : CKind) (f : F) (obj v : PyVal F) :
    cpSet interp ⟨oid, kg, g, Option.some (k, f)⟩ obj v
      = (Except.ok (bindCall interp k f obj (typeOf obj) [v]).1,
         (bindCall interp k f obj (typeOf obj) [v]).2) := rfl

/-- Helper: every bind-and-call performs exactly one raw invocation, of the
given symbol. -/
theorem bindCall_trace_fst {F : Type} (interp : Interp F) (k : CKind) (f : F)
    (obj klass : PyVal F) (args : List (PyVal F)) :
    (bindCall interp k f obj klass args).2.map Prod.fst = [f] := by
  cases k
  · cases obj <;> rfl
  · rfl
  · rfl

/-- C1: evaluating the interceptor at a class whose dict maps `x` to a
descriptor (getter symbol 0 computing 42, setter symbol 1 attached) shows the
assignment `C.x = 7` running the getter, replacing the descriptor with the
plain value 7 in the class dict, and never invoking the setter — the routing
the claim states does not happen, because `getattr` hands the `isinstance`
test the getter's result instead of the stored descriptor. -/
theorem metaSetattr_clobbers_descriptor :
    metaSetattr interpConst
      ⟨"C", [("x", PyVal.cprop ⟨1, CKind.plain, 0,
                    Option.some (CKind.classmethod, 1)⟩)]⟩
      "x" (PyVal.int 7)
      = ⟨false, [("x", PyVal.int 7)], [(0, [PyVal.cls "C" metaName])]⟩ := by
  rfl

/-- C2: with a getter-only descriptor at `x` (getter symbol 0 computing 42),
the class-level assignment `C.x = 7` raises nothing and replaces the
attribute, while the instance-level assignment does raise the unsupported
write error — the claim's class half fails on the code. -/
theorem getter_only_assignment_behaviour :
    metaSetattr interpConst
      ⟨"C", [("x", PyVal.cprop ⟨1, CKind.plain, 0, Option.none⟩)]⟩
      "x" (PyVal.int 7)
      = ⟨false, [("x", PyVal.int 7)], [(0, [PyVal.cls "C" metaName])]⟩
    ∧ instanceSetattr interpConst
      ⟨"C", [("x", PyVal.cprop ⟨1, CKind.plain, 0, Option.none⟩)]⟩
      "x" (PyVal.int 7)
      = (true, []) := by
  exact ⟨rfl, rfl⟩

/-- C3: the write operation fails with the attribute error, performing no
invocation, exactly when no setter was ever attached; with any attached
setter it succeeds, and this is the descriptor's only error condition. -/
theorem cpSet_error_iff_no_setter {F : Type} (interp : Interp F) (p : CProp F)
    (obj v : PyVal F) :
    (p.fset = Option.none →
      cpSet interp p obj v = (Except.error "Can't set attribute.", []))
    ∧ (∀ k f, p.fset = Option.some (k, f) →
        ∃ r t, cpSet interp p obj v = (Except.ok r, t)) := by
  constructor
  · intro h
    simp [cpSet, h]
  · intro k f h
    have he : cpSet interp p obj v
        = (Except.ok (bindCall interp k f obj (typeOf obj) [v]).1,
           (bindCall interp k f obj (typeOf obj) [v]).2) := by
      simp [cpSet, h]
    exact ⟨_, _, he⟩

/-- C3 witness: the theorem applied at a concrete setterless descriptor and a
concrete descriptor with a setter. -/
theorem cpSet_error_iff_no_setter_witness :
    cpSet interpConst ⟨1, CKind.plain, 0, Option.none⟩ PyVal.none (PyVal.int 5)
      = (Except.error "Can't set attribute.", [])
    ∧ ∃ r t,
      cpSet interpConst ⟨1, CKind.plain, 0, Option.some (CKind.classmethod, 1)⟩
        PyVal.none (PyVal.int 5) = (Except.ok r, t) :=
  ⟨(cpSet_error_iff_no_setter interpConst ⟨1, CKind.plain, 0, Option.none⟩
      PyVal.none (PyVal.int 5)).1 rfl,
   (cpSet_error_iff_no_setter interpConst
      ⟨1, CKind.plain, 0, Option.some (CKind.classmethod, 1)⟩
      PyVal.none (PyVal.int 5)).2 CKind.classmethod 1 rfl⟩

/-- C4 counterexample: for a descriptor with both getter (symbol 2, computing
5) and setter (symbol 3), the class assignment `D.y = 1` through the
interceptor runs only the getter, replaces the attribute, and never invokes
the setter — refuting the claim that the setter is invoked once with the
owning class as receiver. -/
theorem class_assignment_skips_setter_counterexample :
    metaSetattr interpC4
      ⟨"D", [("y", PyVal.cprop ⟨7, CKind.plain, 2,
                    Option.some (CKind.classmethod, 3)⟩)]⟩
      "y" (PyVal.int 1)
      = ⟨false, [("y", PyVal.int 1)], [(2, [PyVal.cls "D" metaName])]⟩ := by
  rfl

/-- C4 amended: invoking the descriptor's write operation directly with a
classmethod setter calls it exactly once with the value as sole explicit
argument and the **type of the accessing object** as bound receiver — the
owning class when the accessing object is an instance, but the metaclass
when it is the class object itself; the interceptor path with an ordinary
getter value never reaches the setter (see the counterexample). -/
theorem cpSet_invokes_setter_once_with_type_receiver {F : Type}
    (interp : Interp F) (oid : Nat) (kg : CKind) (g f : F) (c : PyClass F)
    (v : PyVal F) :
    cpSet interp ⟨oid, kg, g, Option.some (CKind.classmethod, f)⟩ (instValue c) v
      = (Except.ok (interp f [classValue c, v]), [(f, [classValue c, v])])
    ∧ cpSet interp ⟨oid, kg, g, Option.some (CKind.classmethod, f)⟩ (classValue c) v
      = (Except.ok (interp f [metaValue, v]), [(f, [metaValue, v])]) := by
  exact ⟨rfl, rfl⟩

/-- C5 counterexample: with both an accessing object (an instance of `A`) and
a class (`B`) supplied, the code uses the supplied class `B` and binds the
plain getter to the object, while the claim resolves the object's own class
`A` and binds the getter to it — the two reads differ. -/
theorem effective_class_precedence_counterexample :
    (cpGet interpLen ⟨3, CKind.plain, 0, Option.none⟩
        (PyVal.inst "A" metaName) (Option.some (PyVal.cls "B" metaName))).1
      ≠ specRead interpLen ⟨3, CKind.plain, 0, Option.none⟩
          (PyVal.inst "A" metaName) (PyVal.cls "B" metaName) := by
  decide

/-- C5 amended: the effective class is the supplied class whenever one is
supplied and the accessing object's class only otherwise; the getter is
descriptor-bound with the accessing object and the effective class and called
with the effective class as sole explicit argument; when no accessing object
is supplied the code's read coincides with the spec-side read. -/
theorem cpGet_effective_class_characterization {F : Type} (interp : Interp F)
    (p : CProp F) (obj k : PyVal F) :
    cpGet interp p obj (Option.some k)
      = bindCall interp p.fgetK p.fgetF obj k [k]
    ∧ cpGet interp p obj Option.none
      = bindCall interp p.fgetK p.fgetF obj (typeOf obj) [typeOf obj]
    ∧ (cpGet interp p PyVal.none (Option.some k)).1 = specRead interp p PyVal.none k := by
  exact ⟨rfl, rfl, rfl⟩

/-- C6 counterexample: with a plain-function getter that reports its argument
count, reading the attribute from the class passes one argument while the
instance read binds the instance and passes it too — the two reads differ. -/
theorem instance_read_differs_counterexample :
    (classGetattr interpLen
        ⟨"E", [("z", PyVal.cprop ⟨4, CKind.plain, 0, Option.none⟩)]⟩ "z").1
      ≠ (instanceGetattr interpLen
        ⟨"E", [("z", PyVal.cprop ⟨4, CKind.plain, 0, Option.none⟩)]⟩ "z").1 := by
  decide

/-- C6 amended: for a getter-only class-level attribute whose getter is a
classmethod or a staticmethod callable, reading it from the class and from an
instance return the same value; a plain-function getter binds to the instance
on instance reads and so may differ (see the counterexample). -/
theorem class_and_instance_read_agree_for_bound_getters {F : Type}
    (interp : Interp F) (nm key : String) (oid : Nat) (f : F) :
    (classGetattr interp
        ⟨nm, [(key, PyVal.cprop ⟨oid, CKind.classmethod, f, Option.none⟩)]⟩ key).1
      = (instanceGetattr interp
        ⟨nm, [(key, PyVal.cprop ⟨oid, CKind.classmethod, f, Option.none⟩)]⟩ key).1
    ∧ (classGetattr interp
        ⟨nm, [(key, PyVal.cprop ⟨oid, CKind.staticmethod, f, Option.none⟩)]⟩ key).1
      = (instanceGetattr interp
        ⟨nm, [(key, PyVal.cprop ⟨oid, CKind.staticmethod, f, Option.none⟩)]⟩ key).1 := by
  constructor <;>
    simp [classGetattr, instanceGetattr, lookupDict, cpGet, bindCall,
      classValue, instValue]

/-- C7: the builder call keeps the descriptor's identity (`oid`) and getter
and installs the given callable as setter; the write path afterwards invokes
exactly that callable, successfully. -/
theorem setter_preserves_identity_and_installs {F : Type} (interp : Interp F)
    (p : CProp F) (k : CKind) (f : F) (obj v : PyVal F) :
    (cpSetter p k f).oid = p.oid
    ∧ (cpSetter p k f).fgetK = p.fgetK
    ∧ (cpSetter p k f).fgetF = p.fgetF
    ∧ (cpSetter p k f).fset = Option.some (normalizeSetter k f)
    ∧ (cpSet interp (cpSetter p k f) obj v).2.map Prod.fst = [f]
    ∧ ∃ r, (cpSet interp (cpSetter p k f) obj v).1 = Except.ok r := by
  refine ⟨rfl, rfl, rfl, rfl, ?_, ?_⟩
  · cases k <;>
      simp [cpSetter, normalizeSetter, cpSet_some_eq, bindCall_trace_fst]
  · cases k <;> exact ⟨_, rfl⟩

/-- C8 counterexample: a staticmethod passed to the builder is stored
unchanged, and the stored setter is then invoked with the value alone — its
first parameter is not the class, refuting the claim that the stored setter's
first parameter is always the class. -/
theorem staticmethod_setter_not_class_bound_counterexample :
    (cpSetter ⟨5, CKind.plain, 0, Option.none⟩ CKind.staticmethod 3).fset
        = Option.some (CKind.staticmethod, 3)
    ∧ (cpSet interpLen (cpSetter ⟨5, CKind.plain, 0, Option.none⟩
          CKind.staticmethod 3) (PyVal.inst "G" metaName) (PyVal.int 9)).2
        = [(3, [PyVal.int 9])]
    ∧ (cpSet interpLen (cpSetter ⟨5, CKind.plain, 0, Option.none⟩
          CKind.staticmethod 3) (PyVal.inst "G" metaName) (PyVal.int 9)).2
        ≠ [(3, [PyVal.cls "G" metaName, PyVal.int 9])] := by
  refine ⟨rfl, rfl, ?_⟩
  decide

/-- C8 amended: a plain callable is wrapped into a classmethod, so the stored
setter's invocation receives the class as first argument; classmethod and
staticmethod callables are stored unchanged, and a stored staticmethod
receives the value alone, without the class. -/
theorem normalizeSetter_characterization {F : Type} (interp : Interp F)
    (p : CProp F) (f : F) (c : PyClass F) (v : PyVal F) :
    cpSetter p CKind.plain f
        = { p with fset := Option.some (CKind.classmethod, f) }
    ∧ cpSetter p CKind.classmethod f
        = { p with fset := Option.some (CKind.classmethod, f) }
    ∧ cpSetter p CKind.staticmethod f
        = { p with fset := Option.some (CKind.staticmethod, f) }
    ∧ (cpSet interp (cpSetter p CKind.plain f) (instValue c) v).2
        = [(f, [classValue c, v])]
    ∧ (cpSet interp (cpSetter p CKind.staticmethod f) (instValue c) v).2
        = [(f, [v])] := by
  exact ⟨rfl, rfl, rfl, rfl, rfl⟩

/-- C9 counterexample: a second builder call replaces the stored setter, so
the descriptor is not immutable after setter attachment. -/
theorem second_setter_call_mutates_counterexample :
    (cpSetter (cpSetter (⟨6, CKind.plain, 0, Option.none⟩ : CProp Nat)
        CKind.plain 1) CKind.plain 2).fset
      ≠ (cpSetter (⟨6, CKind.plain, 0, Option.none⟩ : CProp Nat)
        CKind.plain 1).fset := by
  decide

/-- C9 amended: a further builder call overwrites the stored setter — two
successive calls equal the last one alone — while the getter and the object
identity are never changed by any builder call. -/
theorem setter_overwrite_characterization {F : Type} (p : CProp F)
    (k1 k2 : CKind) (f1 f2 : F) :
    cpSetter (cpSetter p k1 f1) k2 f2 = cpSetter p k2 f2
    ∧ (cpSetter p k1 f1).oid = p.oid
    ∧ (cpSetter p k1 f1).fgetK = p.fgetK
    ∧ (cpSetter p k1 f1).fgetF = p.fgetF := by
  exact ⟨rfl, rfl, rfl, rfl⟩

/-- C10: when the class dict stores a descriptor under the assigned name, the
interceptor's assignment first performs the full `getattr` lookup — the
stored descriptor's getter invocation opens the trace — and the redirect test
is applied to the getter's computed value: when that value is not itself a
descriptor the assignment is the ordinary dict update even though the stored
object is one, and when it is a descriptor `q` the assignment is delegated to
`q`'s write path, raising exactly when that write errors. -/
theorem metaSetattr_checks_computed_value {F : Type} (interp : Interp F)
    (c : PyClass F) (key : String) (v : PyVal F) (p : CProp F)
    (h : lookupDict c.dict key = Option.some (PyVal.cprop p)) :
    (metaSetattr interp c key v).trace.take
        (cpGet interp p PyVal.none (Option.some (classValue c))).2.length
      = (cpGet interp p PyVal.none (Option.some (classValue c))).2
    ∧ (isCProp (cpGet interp p PyVal.none (Option.some (classValue c))).1 = false →
        metaSetattr interp c key v
          = ⟨false, updateDict c.dict key v,
             (cpGet interp p PyVal.none (Option.some (classValue c))).2⟩)
    ∧ (∀ q, (cpGet interp p PyVal.none (Option.some (classValue c))).1
          = PyVal.cprop q →
        metaSetattr interp c key v
          = ⟨isErr (cpSet interp q (classValue c) v).1, c.dict,
             (cpGet interp p PyVal.none (Option.some (classValue c))).2
               ++ (cpSet interp q (classValue c) v).2⟩) := by
  have hm : metaSetattr interp c key v
      = match (cpGet interp p PyVal.none (Option.some (classValue c))).1 with
        | PyVal.cprop q =>
          match cpSet interp q (classValue c) v with
          | (Except.error _, t2) =>
            ⟨true, c.dict,
             (cpGet interp p PyVal.none (Option.some (classValue c))).2 ++ t2⟩
          | (Except.ok _, t2) =>
            ⟨false, c.dict,
             (cpGet interp p PyVal.none (Option.some (classValue c))).2 ++ t2⟩
        | _ => ⟨false, updateDict c.dict key v,
                (cpGet interp p PyVal.none (Option.some (classValue c))).2⟩ := by
    simp [metaSetattr, classGetattr, h]
  refine ⟨?_, ?_, ?_⟩
  · rw [hm]
    cases hg : (cpGet interp p PyVal.none (Option.some (classValue c))).1
    case cprop q =>
      rcases hs : cpSet interp q (classValue c) v with ⟨e, t⟩
      dsimp only
      rw [hs]
      cases e <;> simp [List.take_left]
    all_goals simp [List.take_length]
  · intro hnot
    rw [hm]
    cases hg : (cpGet interp p PyVal.none (Option.some (classValue c))).1
    case cprop q =>
      rw [hg] at hnot
      simp [isCProp] at hnot
    all_goals rfl
  · intro q hq
    rw [hm, hq]
    rcases hs : cpSet interp q (classValue c) v with ⟨e, t⟩
    cases e <;> simp [hs, isErr]

/-- C10 witness: at a concrete class whose dict stores a getter-only
descriptor under `w` (getter symbol 0 computing 42), the theorem yields the
concrete outcome of `W.w = 7`: getter invoked, value checked, ordinary
replacement performed. -/
theorem metaSetattr_checks_computed_value_witness :
    metaSetattr interpConst
      ⟨"W", [("w", PyVal.cprop ⟨9, CKind.plain, 0, Option.none⟩)]⟩
      "w" (PyVal.int 7)
      = ⟨false, [("w", PyVal.int 7)], [(0, [PyVal.cls "W" metaName])]⟩ := by
  have h := metaSetattr_checks_computed_value interpConst
      ⟨"W", [("w", PyVal.cprop ⟨9, CKind.plain, 0, Option.none⟩)]⟩
      "w" (PyVal.int 7) ⟨9, CKind.plain, 0, Option.none⟩ (by rfl)
  simpa using h.2.1 (by decide)

end PyShim
